import Mathlib

/-!
Verification development for the WoLow Wake-on-LAN server (`src/app.py`).

The Python program is shallowly embedded: pure computations become Lean
functions over `List Char` / association lists, stateful handlers become
explicit state-passing functions on an `AppState` record, and every
exception path of the source is represented by an explicit constructor of
a result type.  Python dictionaries are modelled as insertion-ordered
association lists (`List (String × α)`) whose update semantics match
CPython: assignment updates the first binding in place or appends, and
deletion removes the binding.
-/

namespace WolApp

/-- Values appearing in the status-record dictionaries of the app:
Python `None`, booleans, numbers (timestamps and round-trip times are
modelled abstractly as naturals) and strings. -/
inductive PyVal where
  | vNone
  | vBool (b : Bool)
  | vNat (n : Nat)
  | vStr (s : String)
  deriving DecidableEq, Repr

/-- Python dict assignment `d[k] = v` on an association list: the first
binding of `k` is updated in place, otherwise `(k, v)` is appended. -/
def dictSet {α : Type} (k : String) (v : α) : List (String × α) → List (String × α)
  | [] => [(k, v)]
  | (a, b) :: t => if a = k then (k, v) :: t else (a, b) :: dictSet k v t

/-- Python dict deletion `del d[k]`: removes the binding(s) of `k`. -/
def dictDel {α : Type} (k : String) : List (String × α) → List (String × α)
  | [] => []
  | (a, b) :: t => if a = k then dictDel k t else (a, b) :: dictDel k t

/-- Python `d.update(r)`: assign every binding of `r` into `d`, in order. -/
def dictUpdate {α : Type} (d r : List (String × α)) : List (String × α) :=
  r.foldl (fun acc p => dictSet p.1 p.2 acc) d

theorem lookup_cons_eq {α : Type} (a : String) (b : α) (t : List (String × α)) :
    List.lookup a ((a, b) :: t) = some b := by
  simp [List.lookup]

theorem lookup_cons_ne {α : Type} (k a : String) (b : α) (t : List (String × α))
    (h : k ≠ a) : List.lookup k ((a, b) :: t) = List.lookup k t := by
  have hb : (k == a) = false := beq_eq_false_iff_ne.mpr h
  simp [List.lookup, hb]

theorem lookup_dictSet_self {α : Type} (k : String) (v : α) (d : List (String × α)) :
    (dictSet k v d).lookup k = some v := by
  induction d with
  | nil => simp [dictSet, lookup_cons_eq]
  | cons p t ih =>
    obtain ⟨a, b⟩ := p
    by_cases h : a = k
    · simp [dictSet, h, lookup_cons_eq]
    · simp [dictSet, h, lookup_cons_ne k a b _ (Ne.symm h), ih]

theorem lookup_dictSet_ne {α : Type} (k k' : String) (v : α) (d : List (String × α))
    (h : k' ≠ k) : (dictSet k v d).lookup k' = d.lookup k' := by
  induction d with
  | nil =>
    show List.lookup k' [(k, v)] = List.lookup k' []
    rw [lookup_cons_ne k' k v [] h]
  | cons p t ih =>
    obtain ⟨a, b⟩ := p
    by_cases ha : a = k
    · subst ha
      simp [dictSet, lookup_cons_ne k' a _ _ h]
    · by_cases ha' : k' = a
      · subst ha'
        simp [dictSet, ha, lookup_cons_eq]
      · simp [dictSet, ha, lookup_cons_ne k' a _ _ ha', ih]

theorem lookup_dictDel_self {α : Type} (k : String) (d : List (String × α)) :
    (dictDel k d).lookup k = none := by
  induction d with
  | nil => simp [dictDel, List.lookup]
  | cons p t ih =>
    obtain ⟨a, b⟩ := p
    by_cases h : a = k
    · simp [dictDel, h, ih]
    · simp [dictDel, h, lookup_cons_ne k a b _ (Ne.symm h), ih]

theorem lookup_dictDel_ne {α : Type} (k k' : String) (d : List (String × α))
    (h : k' ≠ k) : (dictDel k d).lookup k' = d.lookup k' := by
  induction d with
  | nil => simp [dictDel]
  | cons p t ih =>
    obtain ⟨a, b⟩ := p
    by_cases ha : a = k
    · subst ha
      simp [dictDel, lookup_cons_ne k' a b t h, ih]
    · by_cases ha' : k' = a
      · subst ha'
        simp [dictDel, ha, lookup_cons_eq]
      · simp [dictDel, ha, lookup_cons_ne k' a b _ ha', ih]

theorem mem_dictSet {α : Type} (k : String) (v : α) (d : List (String × α)) :
    ∀ p ∈ dictSet k v d, p.2 = v ∨ p ∈ d := by
  induction d with
  | nil =>
    intro p hp
    simp [dictSet] at hp
    simp [hp]
  | cons q t ih =>
    obtain ⟨a, b⟩ := q
    intro p hp
    by_cases h : a = k
    · simp [dictSet, h] at hp
      rcases hp with rfl | hp
      · simp
      · right; simp [hp]
    · simp [dictSet, h] at hp
      rcases hp with rfl | hp
      · right; simp
      · rcases ih p hp with h' | h'
        · exact Or.inl h'
        · right; simp [h']

theorem mem_dictDel {α : Type} (k : String) (d : List (String × α)) :
    ∀ p ∈ dictDel k d, p ∈ d := by
  induction d with
  | nil => intro p hp; simp [dictDel] at hp
  | cons q t ih =>
    obtain ⟨a, b⟩ := q
    intro p hp
    by_cases h : a = k
    · simp [dictDel, h] at hp
      right; exact ih p hp
    · simp [dictDel, h] at hp
      rcases hp with rfl | hp
      · simp
      · right; exact ih p hp

theorem mem_dictUpdate {α : Type} (d r : List (String × α)) :
    ∀ p ∈ dictUpdate d r, p ∈ d ∨ ∃ q ∈ r, p.2 = q.2 := by
  induction r generalizing d with
  | nil => intro p hp; exact Or.inl hp
  | cons q t ih =>
    intro p hp
    have := ih (dictSet q.1 q.2 d) p hp
    rcases this with h | ⟨q', hq', hpq⟩
    · rcases mem_dictSet q.1 q.2 d p h with h' | h'
      · exact Or.inr ⟨q, by simp, h'⟩
      · exact Or.inl h'
    · exact Or.inr ⟨q', by simp [hq'], hpq⟩

/-! ## Liveness prober (`ping_device`, src/app.py lines 66-95) -/

/-- Outcome of the `subprocess.run` invocation of the platform ping tool:
the process completed with an exit code (and a measured wall-clock elapsed
time, modelled abstractly as a natural number of rounded milliseconds),
or `subprocess.TimeoutExpired` was raised, or any other exception was
raised (tool missing, permission denied, ...). -/
inductive PingOutcome where
  | completed (returncode : Int) (elapsedMs : Nat)
  | timedOut
  | errored (msg : String)
  deriving DecidableEq, Repr

/-- Shallow embedding of `ping_device` (src/app.py lines 66-95).  Every
exception path of the source is a constructor of `PingOutcome`, so this
total function returning a plain pair embodies "never raises past this
boundary".  `if result.returncode == 0` yields `(True, response_time)`,
everything else — nonzero exit, `TimeoutExpired`, any other exception —
yields `(False, None)`. -/
def ping_device : PingOutcome → Bool × Option Nat
  | .completed rc e => if rc = 0 then (true, some e) else (false, none)
  | .timedOut => (false, none)
  | .errored _ => (false, none)

/-- The ping subprocess completed successfully (exit code 0). -/
def pingSucceeded : PingOutcome → Bool
  | .completed rc _ => rc = 0
  | .timedOut => false
  | .errored _ => false

/-! ## Packet builder (`send_magic_packet`, src/app.py lines 148-178) -/

/-- Value of a hexadecimal digit, exactly the digits accepted by Python
`bytes.fromhex`, decided on the character's code point (48-57 are
`0`-`9`, 65-70 are `A`-`F`, 97-102 are `a`-`f`). -/
def hexVal? (c : Char) : Option Nat :=
  let n := c.toNat
  if 48 ≤ n ∧ n ≤ 57 then some (n - 48)
  else if 65 ≤ n ∧ n ≤ 70 then some (n - 55)
  else if 97 ≤ n ∧ n ≤ 102 then some (n - 87)
  else none

/-- ASCII whitespace, which Python `bytes.fromhex` skips between bytes. -/
def isAsciiSpace (c : Char) : Bool :=
  c == ' ' || c == '\t' || c == '\n' || c == '\x0b' || c == '\x0c' || c == '\r'

/-- Shallow embedding of Python `bytes.fromhex`: ASCII whitespace may
appear between bytes and is skipped; each byte is two adjacent hex
digits; any other character (or a trailing lone digit) raises
`ValueError`, modelled as `none`.  (The hex-digit test is made before
the whitespace test; since no character is both, this computes the same
function as CPython's skip-whitespace-first loop.) -/
def fromhex? : List Char → Option (List Nat)
  | [] => some []
  | c :: rest =>
    match hexVal? c with
    | some hi =>
      match rest with
      | [] => none
      | c2 :: rest2 =>
        match hexVal? c2 with
        | some lo => (fromhex? rest2).map (fun bs => (16 * hi + lo) :: bs)
        | none => none
    | none => if isAsciiSpace c then fromhex? rest else none

/-- A character of the ASCII range.  Python `str.upper()` is
Unicode-aware and can expand a character into several (e.g. the ligature
`ﬀ` uppercases to `FF`), but on ASCII strings it coincides with
per-character ASCII uppercasing and is length-preserving.  `normalizeMac`
below implements that ASCII restriction, so theorems about it are
faithful to CPython exactly on inputs whose characters are ASCII; every
theorem whose hypotheses do not already force ASCII hex digits carries an
explicit `isAsciiChar` hypothesis. -/
def isAsciiChar (c : Char) : Bool :=
  c.toNat < 128

/-- The normalisation performed by `send_magic_packet`:
`mac_address.replace(':', '').replace('-', '').upper()`, with `upper()`
modelled by ASCII `Char.toUpper` — faithful to Python's Unicode
`str.upper()` on ASCII input (see `isAsciiChar`). -/
def normalizeMac (mac : List Char) : List Char :=
  (mac.filter (fun c => c != ':' && c != '-')).map Char.toUpper

/-- Python `ip_address.split('.')`. -/
def splitOnDot : List Char → List (List Char)
  | [] => [[]]
  | c :: rest =>
    match splitOnDot rest with
    | [] => [[c]]
    | p :: ps => if c = '.' then [] :: p :: ps else (c :: p) :: ps

/-- Python `'.'.join(parts)`. -/
def joinDots : List (List Char) → List Char
  | [] => []
  | [p] => p
  | p :: ps => p ++ '.' :: joinDots ps

/-- `broadcast_ip = '.'.join(ip_address.split('.')[:-1]) + '.255'`
(src/app.py line 171).  Note it never consults the stored subnet mask. -/
def broadcastIp (ip : List Char) : List Char :=
  joinDots (splitOnDot ip).dropLast ++ ['.', '2', '5', '5']

/-- The `(broadcast_ip, port)` destination pair handed to `sock.sendto`
(src/app.py line 172). -/
def wolTarget (ip : List Char) (port : Nat) : List Char × Nat :=
  (broadcastIp ip, port)

/-- Result of `send_magic_packet`: either the exact datagram payload and
destination handed to `sock.sendto`, or the caught-`ValueError` failure
path, which returns `(False, message)` without ever creating a socket. -/
inductive WolResult where
  | sent (payload : List Nat) (dest : List Char × Nat)
  | failed
  deriving DecidableEq, Repr

/-- Shallow embedding of `send_magic_packet` (src/app.py lines 148-178)
up to the socket write: strip `:`/`-`, uppercase, require length 12,
decode with `bytes.fromhex`, build `b'\xFF' * 6 + mac_bytes * 16` and
send it to `(broadcastIp ip, port)`. -/
def send_magic_packet (mac ip : List Char) (port : Nat) : WolResult :=
  let m := normalizeMac mac
  if m.length ≠ 12 then .failed
  else
    match fromhex? m with
    | none => .failed
    | some macBytes =>
      .sent (List.replicate 6 255 ++ (List.replicate 16 macBytes).flatten) (wolTarget ip port)

/-- Whether `send_magic_packet` reached the `sock.sendto` call. -/
def wasSent : WolResult → Bool
  | .sent _ _ => true
  | .failed => false

theorem fromhex_ok : ∀ l : List Char, (∀ c ∈ l, (hexVal? c).isSome) → l.length % 2 = 0 →
    ∃ bs, fromhex? l = some bs ∧ bs.length = l.length / 2
  | [], _, _ => ⟨[], rfl, rfl⟩
  | [c], _, hev => absurd hev (by simp)
  | c1 :: c2 :: rest, hhex, hev => by
    obtain ⟨h1, hh1⟩ := Option.isSome_iff_exists.mp (hhex c1 (by simp))
    obtain ⟨h2, hh2⟩ := Option.isSome_iff_exists.mp (hhex c2 (by simp))
    have hev' : rest.length % 2 = 0 := by
      simp [List.length_cons] at hev
      omega
    obtain ⟨bs, hbs, hlen⟩ :=
      fromhex_ok rest (fun c hc => hhex c (by simp [hc])) hev'
    refine ⟨(16 * h1 + h2) :: bs, ?_, ?_⟩
    · simp [fromhex?, hh1, hh2, hbs]
    · simp [List.length_cons, hlen]
      omega

theorem fromhex_none_of_bad : ∀ (l : List Char) (c : Char), c ∈ l →
    hexVal? c = none → isAsciiSpace c = false → fromhex? l = none
  | [], c, hc, _, _ => absurd hc (List.not_mem_nil c)
  | x :: rest, c, hc, hhex, hsp => by
    rcases List.mem_cons.mp hc with rfl | hmem
    · simp [fromhex?, hhex, hsp]
    · cases hx : hexVal? x with
      | none =>
        by_cases hxs : isAsciiSpace x
        · simp [fromhex?, hx, hxs, fromhex_none_of_bad rest c hmem hhex hsp]
        · simp [fromhex?, hx, hxs]
      | some hi =>
        cases rest with
        | nil => simp at hmem
        | cons c2 rest2 =>
          rcases List.mem_cons.mp hmem with rfl | hmem2
          · simp [fromhex?, hx, hhex]
          · cases h2 : hexVal? c2 with
            | none => simp [fromhex?, hx, h2]
            | some lo =>
              simp [fromhex?, hx, h2, fromhex_none_of_bad rest2 c hmem2 hhex hsp]
termination_by l => l.length

theorem splitOnDot_ne_nil : ∀ l : List Char, splitOnDot l ≠ []
  | [] => by simp [splitOnDot]
  | c :: rest => by
    cases h : splitOnDot rest with
    | nil => simp [splitOnDot, h]
    | cons p ps => by_cases hc : c = '.' <;> simp [splitOnDot, h, hc]

theorem splitOnDot_no_dot : ∀ l : List Char, '.' ∉ l → splitOnDot l = [l]
  | [], _ => rfl
  | c :: rest, h => by
    have hc : c ≠ '.' := fun hh => h (by simp [hh])
    have hr : '.' ∉ rest := fun hh => h (by simp [hh])
    simp [splitOnDot, splitOnDot_no_dot rest hr, hc]

theorem splitOnDot_append : ∀ a b : List Char, '.' ∉ a →
    splitOnDot (a ++ '.' :: b) = a :: splitOnDot b
  | [], b, _ => by
    cases h : splitOnDot b with
    | nil => exact absurd h (splitOnDot_ne_nil b)
    | cons p ps => simp [splitOnDot, h]
  | c :: a', b, h => by
    have hc : c ≠ '.' := fun hh => h (by simp [hh])
    have ha : '.' ∉ a' := fun hh => h (by simp [hh])
    simp [splitOnDot, splitOnDot_append a' b ha, hc]

/-! ## Settling the packet-builder and prober claims -/

/-- Claim C1: for every valid MAC address — 12 hex digits after stripping
any mixture of `:`/`-` separators and case-normalising — `send_magic_packet`
decodes exactly 6 bytes and hands `sock.sendto` the 102-byte payload
`6 × 0xFF ++ 16 ×` MAC; and any two textual forms with the same
normalisation produce the same result. -/
theorem c1_magic_packet (mac mac2 ip : List Char) (port : Nat)
    (hlen : (normalizeMac mac).length = 12)
    (hhex : ∀ c ∈ normalizeMac mac, (hexVal? c).isSome)
    (hsame : normalizeMac mac2 = normalizeMac mac) :
    ∃ macBytes, fromhex? (normalizeMac mac) = some macBytes ∧ macBytes.length = 6 ∧
      send_magic_packet mac ip port =
        .sent (List.replicate 6 255 ++ (List.replicate 16 macBytes).flatten)
          (wolTarget ip port) ∧
      (List.replicate 6 255 ++ (List.replicate 16 macBytes).flatten).length = 102 ∧
      send_magic_packet mac2 ip port = send_magic_packet mac ip port := by
  obtain ⟨bs, hbs, hbslen⟩ := fromhex_ok (normalizeMac mac) hhex (by omega)
  have h6 : bs.length = 6 := by omega
  refine ⟨bs, hbs, h6, ?_, ?_, ?_⟩
  · simp [send_magic_packet, hlen, hbs]
  · simp [List.length_append, List.length_replicate, List.length_flatten,
      List.map_replicate, List.sum_replicate, smul_eq_mul, h6]
  · simp only [send_magic_packet, hsame]

def c1MacA : List Char := ['a', 'A', ':', 'b', 'B', '-', 'c', 'C', ':', 'd', 'D', '-', 'e', 'E', ':', 'f', 'F']

def c1MacB : List Char := ['A', 'A', 'B', 'B', 'C', 'C', 'D', 'D', 'E', 'E', 'F', 'F']

def c1Ip : List Char := ['1', '9', '2', '.', '1', '6', '8', '.', '0', '.', '1', '8']

theorem c1_magic_packet_witness :
    (normalizeMac c1MacA).length = 12 ∧
    (∀ c ∈ normalizeMac c1MacA, (hexVal? c).isSome) ∧
    normalizeMac c1MacB = normalizeMac c1MacA ∧
    (∃ macBytes, fromhex? (normalizeMac c1MacA) = some macBytes ∧ macBytes.length = 6 ∧
      send_magic_packet c1MacA c1Ip 9 =
        .sent (List.replicate 6 255 ++ (List.replicate 16 macBytes).flatten)
          (wolTarget c1Ip 9) ∧
      (List.replicate 6 255 ++ (List.replicate 16 macBytes).flatten).length = 102 ∧
      send_magic_packet c1MacB c1Ip 9 = send_magic_packet c1MacA c1Ip 9) :=
  ⟨by decide, by decide, by decide,
    c1_magic_packet c1MacA c1MacB c1Ip 9 (by decide) (by decide) (by decide)⟩

def c2Mac : List Char := ['A', 'A', 'B', 'B', 'C', 'C', 'D', 'D', 'E', 'E', ' ', ' ']

def c2Ip : List Char := ['1', '0', '.', '0', '.', '0', '.', '5']

/-- Claim C2 counterexample: `"AABBCCDDEE  "` (ten hex digits and two
spaces) is malformed — after stripping `:`/`-` it has 12 characters but
two of them are not hex digits — yet `send_magic_packet` does not fail:
Python `bytes.fromhex` skips the spaces, decodes 5 bytes, and an 86-byte
datagram is sent. -/
theorem c2_counterexample :
    (normalizeMac c2Mac).length = 12 ∧
    ' ' ∈ normalizeMac c2Mac ∧ hexVal? ' ' = none ∧
    send_magic_packet c2Mac c2Ip 9 =
      .sent (List.replicate 6 255 ++ (List.replicate 16 [170, 187, 204, 221, 238]).flatten)
        (wolTarget c2Ip 9) ∧
    wasSent (send_magic_packet c2Mac c2Ip 9) = true := by
  decide

/-- Claim C2 (amended): for every malformed ASCII MAC whose
stripped-and-uppercased form has a length other than 12, or contains a
character that is neither a hex digit nor ASCII whitespace,
`send_magic_packet` fails with a `ValueError`-based error result and
never reaches the socket send.  Two families of malformed input escape
this and are accepted by the program: a 12-character stripped form mixing
ASCII whitespace with an even number of hex digits (see the
counterexample — `bytes.fromhex` skips the whitespace and a shorter
datagram is sent), and non-ASCII characters that Python's Unicode
`upper()` expands into hex digits (e.g. six `U+FB00` ligatures become
`FFFFFFFFFFFF` and a full 102-byte packet is sent); the `isAsciiChar`
hypothesis keeps the latter outside the embedding's fidelity domain. -/
theorem c2_invalid_mac_rejected (mac ip : List Char) (port : Nat)
    (hascii : ∀ c ∈ mac, isAsciiChar c = true)
    (h : (normalizeMac mac).length ≠ 12 ∨
      ∃ c ∈ normalizeMac mac, hexVal? c = none ∧ isAsciiSpace c = false) :
    send_magic_packet mac ip port = .failed := by
  by_cases hl : (normalizeMac mac).length = 12
  · rcases h with h | ⟨c, hc, hhex, hsp⟩
    · exact absurd hl h
    · have hn := fromhex_none_of_bad (normalizeMac mac) c hc hhex hsp
      simp [send_magic_packet, hl, hn]
  · simp [send_magic_packet, hl]

def c2MacZ : List Char := ['A', 'A', 'B', 'B', 'C', 'C', 'D', 'D', 'E', 'E', 'F', 'Z']

theorem c2_invalid_mac_rejected_witness :
    (∀ c ∈ c2MacZ, isAsciiChar c = true) ∧
    ((normalizeMac c2MacZ).length ≠ 12 ∨
      ∃ c ∈ normalizeMac c2MacZ, hexVal? c = none ∧ isAsciiSpace c = false) ∧
    send_magic_packet c2MacZ c2Ip 9 = .failed :=
  ⟨by decide, by decide, c2_invalid_mac_rejected c2MacZ c2Ip 9 (by decide) (by decide)⟩

/-- Claim C5: `ping_device` is a total function of the subprocess outcome
(every exception path is caught), and whenever the echo facility did not
succeed — timeout, non-zero exit, or any unexpected error — it returns
`(False, None)`: offline with unknown round-trip time. -/
theorem c5_ping_errors_offline (o : PingOutcome) (h : pingSucceeded o = false) :
    ping_device o = (false, none) := by
  cases o with
  | completed rc e =>
    have hrc : ¬rc = 0 := by
      intro h0
      rw [h0] at h
      simp [pingSucceeded] at h
    simp [ping_device, hrc]
  | timedOut => rfl
  | errored msg => rfl

theorem c5_ping_errors_offline_witness :
    pingSucceeded .timedOut = false ∧ ping_device .timedOut = (false, none) :=
  ⟨rfl, c5_ping_errors_offline .timedOut rfl⟩

/-- Claim C7: for every IPv4 dotted-quad address (four nonempty runs of
digits separated by dots) and every port, the datagram destination built
by `send_magic_packet` is the first three octets with `.255` appended —
the stored subnet mask is never consulted (`broadcastIp` does not even
take it as input). -/
theorem c7_broadcast_is_slash24 (a b c d : List Char) (port : Nat)
    (ha : a ≠ []) (hb : b ≠ []) (hc : c ≠ []) (hd : d ≠ [])
    (da : ∀ x ∈ a, x.isDigit) (db : ∀ x ∈ b, x.isDigit)
    (dc : ∀ x ∈ c, x.isDigit) (dd : ∀ x ∈ d, x.isDigit) :
    wolTarget (a ++ ('.' :: (b ++ ('.' :: (c ++ ('.' :: d)))))) port =
      (a ++ ('.' :: (b ++ ('.' :: (c ++ ['.', '2', '5', '5'])))), port) := by
  have nodot : ∀ (l : List Char), (∀ x ∈ l, x.isDigit) → '.' ∉ l := by
    intro l hl hmem
    have := hl '.' hmem
    exact absurd this (by decide)
  have h1 := splitOnDot_append a (b ++ ('.' :: (c ++ ('.' :: d)))) (nodot a da)
  have h2 := splitOnDot_append b (c ++ ('.' :: d)) (nodot b db)
  have h3 := splitOnDot_append c d (nodot c dc)
  have h4 := splitOnDot_no_dot d (nodot d dd)
  simp only [wolTarget, broadcastIp, h1, h2, h3, h4]
  simp [joinDots, List.dropLast, List.append_assoc]

def c7A : List Char := ['1', '9', '2']

def c7B : List Char := ['1', '6', '8']

def c7C : List Char := ['0']

def c7D : List Char := ['1', '8']

theorem c7_broadcast_is_slash24_witness :
    c7A ≠ [] ∧ (∀ x ∈ c7D, x.isDigit) ∧
    wolTarget (c7A ++ ('.' :: (c7B ++ ('.' :: (c7C ++ ('.' :: c7D)))))) 7 =
      (c7A ++ ('.' :: (c7B ++ ('.' :: (c7C ++ ['.', '2', '5', '5'])))), 7) :=
  ⟨by decide, by decide,
    c7_broadcast_is_slash24 c7A c7B c7C c7D 7 (by decide) (by decide) (by decide)
      (by decide) (by decide) (by decide) (by decide) (by decide)⟩

/-! ## Device store and status cache (src/app.py lines 17-64, 97-141, 282-552) -/

/-- A device record as stored under `devices_config[name]`
(src/app.py lines 406-411): the fields are kept exactly as submitted. -/
structure DeviceRecord where
  mac : String
  ip : String
  port : Nat
  subnet : String
  deriving DecidableEq, Repr

/-- The status dictionary literal written by `ping_worker`,
`ping_single_device`, `add_device` and `update_device` (src/app.py lines
116-121, 356-361, 419-424, 495-500): exactly the keys `online`,
`response_time`, `last_checked`, `ip`. -/
def mkStatusInfo (isOnline : Bool) (rt : Option Nat) (lastChecked : Nat) (ip : String) :
    List (String × PyVal) :=
  [("online", .vBool isOnline),
   ("response_time", match rt with | some r => .vNat r | none => .vNone),
   ("last_checked", .vNat lastChecked),
   ("ip", .vStr ip)]

/-- The default status merged in by `get_devices` for a device that has no
entry in the status cache (src/app.py lines 295-300). -/
def defaultStatus (ip : String) : List (String × PyVal) :=
  [("online", .vNone), ("response_time", .vNone), ("last_checked", .vNone), ("ip", .vStr ip)]

/-- The mutable state of the process: the in-memory `devices_config` and
`device_status` globals, plus the contents of the `devices.yaml` backing
file (its parsed `devices` mapping). -/
structure AppState where
  devicesConfig : List (String × DeviceRecord)
  deviceStatus : List (String × List (String × PyVal))
  file : List (String × DeviceRecord)
  deriving DecidableEq, Repr

/-- Python truthiness `if not x` for an optional string request field:
absent or empty counts as missing. -/
def falsyStr : Option String → Bool
  | none => true
  | some s => s == ""

/-- HTTP status code and resulting process state of a handler call. -/
structure OpResult where
  httpStatus : Nat
  state : AppState
  deriving DecidableEq, Repr

/-- Shallow embedding of the `add_device` handler (src/app.py lines
378-442): validate name/mac/ip, mutate `devices_config`, then call
`save_devices` — which on success overwrites the backing file with the
mutated mapping and returns `True`, and on an I/O error (modelled by
`saveOk = false`) catches the exception, leaves the file as it was and
returns `False`.  On successful save the handler pings the new device and
writes its status entry under the lock; on failed save it returns 500
with the in-memory mutation retained. -/
def add_device (st : AppState) (name mac ip : Option String) (port : Nat) (subnet : String)
    (saveOk : Bool) (ping : PingOutcome) (now : Nat) : OpResult :=
  if falsyStr name then ⟨400, st⟩
  else if falsyStr mac then ⟨400, st⟩
  else if falsyStr ip then ⟨400, st⟩
  else
    let deviceName := name.getD ""
    let macAddress := mac.getD ""
    let ipAddress := ip.getD ""
    let cfg := dictSet deviceName ⟨macAddress, ipAddress, port, subnet⟩ st.devicesConfig
    if saveOk then
      let pr := ping_device ping
      ⟨200, ⟨cfg, dictSet deviceName (mkStatusInfo pr.1 pr.2 now ipAddress) st.deviceStatus, cfg⟩⟩
    else ⟨500, ⟨cfg, st.deviceStatus, st.file⟩⟩

/-- Shallow embedding of the `update_device` handler (src/app.py lines
444-518): 404 if the name is unknown; validate mac/ip; if the name
changed, delete the old registry key and move the old status entry to the
new name; write the new record; save; on successful save ping and
overwrite the new name's status entry; on failed save return 500 with all
in-memory mutations retained. -/
def update_device (st : AppState) (deviceName : String) (newName mac ip : Option String)
    (port : Nat) (subnet : String) (saveOk : Bool) (ping : PingOutcome) (now : Nat) : OpResult :=
  match st.devicesConfig.lookup deviceName with
  | none => ⟨404, st⟩
  | some _ =>
    let nn := newName.getD deviceName
    if falsyStr mac then ⟨400, st⟩
    else if falsyStr ip then ⟨400, st⟩
    else
      let macAddress := mac.getD ""
      let ipAddress := ip.getD ""
      let cfg1 := if nn ≠ deviceName then dictDel deviceName st.devicesConfig
        else st.devicesConfig
      let status1 :=
        if nn ≠ deviceName then
          match st.deviceStatus.lookup deviceName with
          | some r => dictSet nn r (dictDel deviceName st.deviceStatus)
          | none => st.deviceStatus
        else st.deviceStatus
      let cfg2 := dictSet nn ⟨macAddress, ipAddress, port, subnet⟩ cfg1
      if saveOk then
        let pr := ping_device ping
        ⟨200, ⟨cfg2, dictSet nn (mkStatusInfo pr.1 pr.2 now ipAddress) status1, cfg2⟩⟩
      else ⟨500, ⟨cfg2, status1, st.file⟩⟩

/-- Shallow embedding of the `delete_device` handler (src/app.py lines
520-552): 404 if unknown; delete the registry key and the status entry;
save; 500 on failed save with the in-memory deletions retained. -/
def delete_device (st : AppState) (deviceName : String) (saveOk : Bool) : OpResult :=
  match st.devicesConfig.lookup deviceName with
  | none => ⟨404, st⟩
  | some _ =>
    let cfg := dictDel deviceName st.devicesConfig
    let status := dictDel deviceName st.deviceStatus
    if saveOk then ⟨200, ⟨cfg, status, cfg⟩⟩ else ⟨500, ⟨cfg, status, st.file⟩⟩

/-- Shallow embedding of the `get_devices` handler response (src/app.py
lines 282-307): reload the registry from the backing file, and merge each
record with its status-cache entry, defaulting to the all-unknown status. -/
def get_devices (st : AppState) : List (String × DeviceRecord × List (String × PyVal)) :=
  st.file.map fun p =>
    (p.1, p.2, (st.deviceStatus.lookup p.1).getD (defaultStatus p.2.ip))

/-- Shallow embedding of the `ping_single_device` handler (src/app.py
lines 338-376): 404 if the name is not in the in-memory registry;
otherwise ping it and overwrite its status-cache entry under the lock. -/
def ping_single_device (st : AppState) (deviceName : String) (ping : PingOutcome) (now : Nat) :
    OpResult :=
  match st.devicesConfig.lookup deviceName with
  | none => ⟨404, st⟩
  | some info =>
    let pr := ping_device ping
    ⟨200, ⟨st.devicesConfig,
      dictSet deviceName (mkStatusInfo pr.1 pr.2 now info.ip) st.deviceStatus, st.file⟩⟩

/-- Shallow embedding of `check_all_devices` (src/app.py lines 97-141):
reload the registry from the file, return unchanged if empty, otherwise
ping every device (the per-device subprocess outcome is given by `pings`)
and merge all the result records into the status cache with
`device_status.update(results)`. -/
def check_all_devices (st : AppState) (pings : String → PingOutcome) (now : Nat) : AppState :=
  let devices := st.file
  if devices.isEmpty then st
  else
    let results := devices.map fun p =>
      (p.1, mkStatusInfo (ping_device (pings p.1)).1 (ping_device (pings p.1)).2 now p.2.ip)
    { st with deviceStatus := dictUpdate st.deviceStatus results }

theorem mem_of_lookup {α : Type} (k : String) (v : α) :
    ∀ d : List (String × α), d.lookup k = some v → (k, v) ∈ d
  | [], h => by simp [List.lookup] at h
  | (a, b) :: t, h => by
    by_cases hk : k = a
    · subst hk
      rw [lookup_cons_eq] at h
      injection h with h
      subst h
      simp
    · rw [lookup_cons_ne k a b t hk] at h
      have := mem_of_lookup k v t h
      simp [this]

/-! ## Claims C3 and C4: persistence failure and rename -/

def c3State : AppState := ⟨[], [], []⟩

/-- Claim C3 counterexample: on an empty registry, adding `PC1` with the
save failing returns 500, but the in-memory `devices_config` is not left
unchanged — it now contains the `PC1` record, because the handler mutates
the registry before calling `save_devices` and never rolls back. -/
theorem c3_counterexample :
    (add_device c3State (some "PC1") (some "AA:BB:CC:DD:EE:FF") (some "10.0.0.5") 9
        "255.255.255.0" false .timedOut 0).httpStatus = 500 ∧
    (add_device c3State (some "PC1") (some "AA:BB:CC:DD:EE:FF") (some "10.0.0.5") 9
        "255.255.255.0" false .timedOut 0).state.devicesConfig ≠ c3State.devicesConfig := by
  decide

/-- Claim C3 (amended): when the save to the backing file fails, each of
add/update/delete returns a 500-class result and leaves the backing file
unchanged, but the in-memory registry retains the mutation (the new,
rekeyed, or deleted record is not rolled back); the status cache receives
no fresh probe entry. -/
theorem c3_persist_failure_keeps_memory_mutation (st : AppState) :
    (∀ (nm mc ip : String) (port : Nat) (subnet : String) (ping : PingOutcome) (now : Nat),
      nm ≠ "" → mc ≠ "" → ip ≠ "" →
      (add_device st (some nm) (some mc) (some ip) port subnet false ping now).httpStatus = 500 ∧
      (add_device st (some nm) (some mc) (some ip) port subnet false ping now).state.file = st.file ∧
      (add_device st (some nm) (some mc) (some ip) port subnet false ping now).state.devicesConfig.lookup nm
        = some ⟨mc, ip, port, subnet⟩ ∧
      (add_device st (some nm) (some mc) (some ip) port subnet false ping now).state.deviceStatus
        = st.deviceStatus) ∧
    (∀ (oldName newName mc ip : String) (port : Nat) (subnet : String) (ping : PingOutcome)
        (now : Nat) (rec0 : DeviceRecord),
      st.devicesConfig.lookup oldName = some rec0 → newName ≠ oldName → mc ≠ "" → ip ≠ "" →
      (update_device st oldName (some newName) (some mc) (some ip) port subnet false ping now).httpStatus = 500 ∧
      (update_device st oldName (some newName) (some mc) (some ip) port subnet false ping now).state.file = st.file ∧
      (update_device st oldName (some newName) (some mc) (some ip) port subnet false ping now).state.devicesConfig.lookup oldName = none ∧
      (update_device st oldName (some newName) (some mc) (some ip) port subnet false ping now).state.devicesConfig.lookup newName
        = some ⟨mc, ip, port, subnet⟩) ∧
    (∀ (name : String) (rec0 : DeviceRecord),
      st.devicesConfig.lookup name = some rec0 →
      (delete_device st name false).httpStatus = 500 ∧
      (delete_device st name false).state.file = st.file ∧
      (delete_device st name false).state.devicesConfig.lookup name = none) := by
  refine ⟨?_, ?_, ?_⟩
  · intro nm mc ip port subnet ping now hnm hmc hip
    have h1 : falsyStr (some nm) = false := beq_eq_false_iff_ne.mpr hnm
    have h2 : falsyStr (some mc) = false := beq_eq_false_iff_ne.mpr hmc
    have h3 : falsyStr (some ip) = false := beq_eq_false_iff_ne.mpr hip
    have hshape : add_device st (some nm) (some mc) (some ip) port subnet false ping now =
        ⟨500, ⟨dictSet nm ⟨mc, ip, port, subnet⟩ st.devicesConfig, st.deviceStatus, st.file⟩⟩ := by
      simp [add_device, h1, h2, h3]
    rw [hshape]
    exact ⟨rfl, rfl, lookup_dictSet_self nm _ _, rfl⟩
  · intro oldName newName mc ip port subnet ping now rec0 hold hne hmc hip
    have h2 : falsyStr (some mc) = false := beq_eq_false_iff_ne.mpr hmc
    have h3 : falsyStr (some ip) = false := beq_eq_false_iff_ne.mpr hip
    have hshape : update_device st oldName (some newName) (some mc) (some ip) port subnet
          false ping now =
        ⟨500, ⟨dictSet newName ⟨mc, ip, port, subnet⟩ (dictDel oldName st.devicesConfig),
          (match st.deviceStatus.lookup oldName with
            | some r => dictSet newName r (dictDel oldName st.deviceStatus)
            | none => st.deviceStatus),
          st.file⟩⟩ := by
      simp [update_device, hold, h2, h3, hne]
    rw [hshape]
    refine ⟨rfl, rfl, ?_, lookup_dictSet_self newName _ _⟩
    rw [lookup_dictSet_ne newName oldName _ _ (Ne.symm hne), lookup_dictDel_self]
  · intro name rec0 hold
    have hshape : delete_device st name false =
        ⟨500, ⟨dictDel name st.devicesConfig, dictDel name st.deviceStatus, st.file⟩⟩ := by
      simp [delete_device, hold]
    rw [hshape]
    exact ⟨rfl, rfl, lookup_dictDel_self name _⟩

def c3wState : AppState :=
  ⟨[("PC1", ⟨"AA:BB:CC:DD:EE:FF", "10.0.0.5", 9, "255.255.255.0"⟩)], [],
    [("PC1", ⟨"AA:BB:CC:DD:EE:FF", "10.0.0.5", 9, "255.255.255.0"⟩)]⟩

theorem c3_persist_failure_keeps_memory_mutation_witness :
    ("PC2" ≠ "" ∧ "AA" ≠ "" ∧ "10.0.0.6" ≠ "") ∧
    (c3wState.devicesConfig.lookup "PC1" =
      some ⟨"AA:BB:CC:DD:EE:FF", "10.0.0.5", 9, "255.255.255.0"⟩) ∧
    ((add_device c3wState (some "PC2") (some "AA") (some "10.0.0.6") 9 "x" false .timedOut 0).httpStatus = 500 ∧
      (add_device c3wState (some "PC2") (some "AA") (some "10.0.0.6") 9 "x" false .timedOut 0).state.file = c3wState.file ∧
      (add_device c3wState (some "PC2") (some "AA") (some "10.0.0.6") 9 "x" false .timedOut 0).state.devicesConfig.lookup "PC2"
        = some ⟨"AA", "10.0.0.6", 9, "x"⟩ ∧
      (add_device c3wState (some "PC2") (some "AA") (some "10.0.0.6") 9 "x" false .timedOut 0).state.deviceStatus
        = c3wState.deviceStatus) ∧
    ((delete_device c3wState "PC1" false).httpStatus = 500 ∧
      (delete_device c3wState "PC1" false).state.file = c3wState.file ∧
      (delete_device c3wState "PC1" false).state.devicesConfig.lookup "PC1" = none) :=
  ⟨⟨by decide, by decide, by decide⟩, by decide,
    (c3_persist_failure_keeps_memory_mutation c3wState).1 "PC2" "AA" "10.0.0.6" 9 "x"
      .timedOut 0 (by decide) (by decide) (by decide),
    (c3_persist_failure_keeps_memory_mutation c3wState).2.2 "PC1"
      ⟨"AA:BB:CC:DD:EE:FF", "10.0.0.5", 9, "255.255.255.0"⟩ (by decide)⟩

def c4Rec : DeviceRecord := ⟨"AA:BB:CC:DD:EE:FF", "10.0.0.5", 9, "255.255.255.0"⟩

def c4OldStatus : List (String × PyVal) :=
  [("online", .vBool true), ("response_time", .vNat 5), ("last_checked", .vNat 1),
   ("ip", .vStr "10.0.0.5")]

def c4State : AppState := ⟨[("PC1", c4Rec)], [("PC1", c4OldStatus)], [("PC1", c4Rec)]⟩

/-- Claim C4 counterexample: renaming `PC1` to `PC1-new` while the save
fails performs no probe at all, yet the status cache now maps `PC1-new`
to the *old* status record (carried across the rename by
`device_status[new_name] = device_status.pop(device_name)`), which is not
the result of any fresh probe performed during the update — its
`last_checked` field still reads 1, not the update's time 99. -/
theorem c4_counterexample :
    (update_device c4State "PC1" (some "PC1-new") (some "AA:BB:CC:DD:EE:FF") (some "10.0.0.5")
        9 "255.255.255.0" false .timedOut 99).httpStatus = 500 ∧
    (update_device c4State "PC1" (some "PC1-new") (some "AA:BB:CC:DD:EE:FF") (some "10.0.0.5")
        9 "255.255.255.0" false .timedOut 99).state.deviceStatus.lookup "PC1-new"
      = some c4OldStatus ∧
    (∀ (o : Bool) (rt : Option Nat), c4OldStatus ≠ mkStatusInfo o rt 99 "10.0.0.5") := by
  refine ⟨by decide, by decide, ?_⟩
  intro o rt h
  simp [c4OldStatus, mkStatusInfo] at h

/-- Claim C4 (amended): when the save succeeds, updating a device under a
new name removes the old registry key and the old status-cache entry,
inserts the record under the new name, and leaves the new name's
status-cache entry holding exactly the record of the fresh probe
performed during the update.  (When the save fails, the old status record
is instead carried to the new name without any re-probe.) -/
theorem c4_rename_reprobes (st : AppState) (oldName newName mc ip : String)
    (port : Nat) (subnet : String) (ping : PingOutcome) (now : Nat) (rec0 : DeviceRecord)
    (hold : st.devicesConfig.lookup oldName = some rec0)
    (hne : newName ≠ oldName) (hmc : mc ≠ "") (hip : ip ≠ "") :
    (update_device st oldName (some newName) (some mc) (some ip) port subnet true ping now).httpStatus = 200 ∧
    (update_device st oldName (some newName) (some mc) (some ip) port subnet true ping now).state.devicesConfig.lookup oldName = none ∧
    (update_device st oldName (some newName) (some mc) (some ip) port subnet true ping now).state.deviceStatus.lookup oldName = none ∧
    (update_device st oldName (some newName) (some mc) (some ip) port subnet true ping now).state.devicesConfig.lookup newName
      = some ⟨mc, ip, port, subnet⟩ ∧
    (update_device st oldName (some newName) (some mc) (some ip) port subnet true ping now).state.deviceStatus.lookup newName
      = some (mkStatusInfo (ping_device ping).1 (ping_device ping).2 now ip) := by
  have h2 : falsyStr (some mc) = false := beq_eq_false_iff_ne.mpr hmc
  have h3 : falsyStr (some ip) = false := beq_eq_false_iff_ne.mpr hip
  have hshape : update_device st oldName (some newName) (some mc) (some ip) port subnet
        true ping now =
      ⟨200, ⟨dictSet newName ⟨mc, ip, port, subnet⟩ (dictDel oldName st.devicesConfig),
        dictSet newName (mkStatusInfo (ping_device ping).1 (ping_device ping).2 now ip)
          (match st.deviceStatus.lookup oldName with
            | some r => dictSet newName r (dictDel oldName st.deviceStatus)
            | none => st.deviceStatus),
        dictSet newName ⟨mc, ip, port, subnet⟩ (dictDel oldName st.devicesConfig)⟩⟩ := by
    simp [update_device, hold, h2, h3, hne]
  rw [hshape]
  refine ⟨rfl, ?_, ?_, lookup_dictSet_self newName _ _, lookup_dictSet_self newName _ _⟩
  · rw [lookup_dictSet_ne newName oldName _ _ (Ne.symm hne), lookup_dictDel_self]
  · rw [lookup_dictSet_ne newName oldName _ _ (Ne.symm hne)]
    cases hsl : st.deviceStatus.lookup oldName with
    | some r =>
      simp only [hsl]
      rw [lookup_dictSet_ne newName oldName _ _ (Ne.symm hne), lookup_dictDel_self]
    | none =>
      simp only [hsl]

theorem c4_rename_reprobes_witness :
    (c4State.devicesConfig.lookup "PC1" = some c4Rec ∧ ("PC1-new" : String) ≠ "PC1" ∧
      ("AA:BB:CC:DD:EE:FF" : String) ≠ "" ∧ ("10.0.0.5" : String) ≠ "") ∧
    ((update_device c4State "PC1" (some "PC1-new") (some "AA:BB:CC:DD:EE:FF") (some "10.0.0.5")
        9 "255.255.255.0" true .timedOut 99).httpStatus = 200 ∧
      (update_device c4State "PC1" (some "PC1-new") (some "AA:BB:CC:DD:EE:FF") (some "10.0.0.5")
        9 "255.255.255.0" true .timedOut 99).state.devicesConfig.lookup "PC1" = none ∧
      (update_device c4State "PC1" (some "PC1-new") (some "AA:BB:CC:DD:EE:FF") (some "10.0.0.5")
        9 "255.255.255.0" true .timedOut 99).state.deviceStatus.lookup "PC1" = none ∧
      (update_device c4State "PC1" (some "PC1-new") (some "AA:BB:CC:DD:EE:FF") (some "10.0.0.5")
        9 "255.255.255.0" true .timedOut 99).state.devicesConfig.lookup "PC1-new"
        = some ⟨"AA:BB:CC:DD:EE:FF", "10.0.0.5", 9, "255.255.255.0"⟩ ∧
      (update_device c4State "PC1" (some "PC1-new") (some "AA:BB:CC:DD:EE:FF") (some "10.0.0.5")
        9 "255.255.255.0" true .timedOut 99).state.deviceStatus.lookup "PC1-new"
        = some (mkStatusInfo (ping_device .timedOut).1 (ping_device .timedOut).2 99 "10.0.0.5")) :=
  ⟨⟨by decide, by decide, by decide, by decide⟩,
    c4_rename_reprobes c4State "PC1" "PC1-new" "AA:BB:CC:DD:EE:FF" "10.0.0.5" 9
      "255.255.255.0" .timedOut 99 c4Rec (by decide) (by decide) (by decide) (by decide)⟩

/-! ## The `load_devices` filesystem model (src/app.py lines 23-44) -/

/-- Outcome of opening and `yaml.safe_load`-ing the backing file: the read
or parse raised; the document was empty (`safe_load` returned `None`, then
`or {}` applies); the top level was not a mapping (`data.get` raises
`AttributeError`, caught by the handler); or a mapping with or without a
`devices` key. -/
inductive YamlParse where
  | failed
  | nullDoc
  | nonMapping
  | mapping (devices : Option (List (String × DeviceRecord)))
  deriving DecidableEq, Repr

/-- The backing file is missing, or present with a given parse outcome. -/
inductive FsState where
  | missing
  | present (p : YamlParse)
  deriving DecidableEq, Repr

/-- The structure written by `load_devices` when the file is missing and
by `save_devices`: `{devices, version, created_by}`. -/
structure ConfigFile where
  devices : List (String × DeviceRecord)
  version : String
  createdBy : String
  deriving DecidableEq, Repr

/-- The `default_config` literal of src/app.py lines 34-38. -/
def defaultConfig : ConfigFile :=
  ⟨[], "1.0", "WoLow Wake-on-LAN App"⟩

/-- What a call to `load_devices` returns and writes. -/
structure LoadResult where
  devices : List (String × DeviceRecord)
  written : Option ConfigFile
  deriving DecidableEq, Repr

/-- Shallow embedding of `load_devices` (src/app.py lines 23-44).  Every
exception path of the source (read failure, parse failure, non-mapping
document, and even a failure while writing the default config) is caught
by the surrounding `try` and returns `{}`; a missing file causes the
default config to be written when the write succeeds. -/
def load_devices (fs : FsState) (writeOk : Bool) : LoadResult :=
  match fs with
  | .present (.mapping (some d)) => ⟨d, none⟩
  | .present (.mapping none) => ⟨[], none⟩
  | .present .nullDoc => ⟨[], none⟩
  | .present .nonMapping => ⟨[], none⟩
  | .present .failed => ⟨[], none⟩
  | .missing => if writeOk then ⟨[], some defaultConfig⟩ else ⟨[], none⟩

/-- Claim C6: `load_devices` is a total function of the filesystem
outcome (no exception escapes it); a missing backing file makes it create
the empty store with the `version` marker and return the empty mapping;
any read or parse failure — and any non-`devices` document — degrades to
the empty mapping. -/
theorem c6_load_never_raises (fs : FsState) (writeOk : Bool) :
    (fs = .missing → writeOk = true →
      load_devices fs writeOk = ⟨[], some defaultConfig⟩ ∧
      defaultConfig.devices = [] ∧ defaultConfig.version = "1.0") ∧
    (fs = .present .failed → load_devices fs writeOk = ⟨[], none⟩) ∧
    (fs = .present .nullDoc → load_devices fs writeOk = ⟨[], none⟩) ∧
    (fs = .present .nonMapping → load_devices fs writeOk = ⟨[], none⟩) ∧
    ((load_devices fs writeOk).devices ≠ [] →
      ∃ d, fs = .present (.mapping (some d)) ∧ (load_devices fs writeOk).devices = d) := by
  refine ⟨?_, ?_, ?_, ?_, ?_⟩
  · rintro rfl rfl
    exact ⟨rfl, rfl, rfl⟩
  · rintro rfl; rfl
  · rintro rfl; rfl
  · rintro rfl; rfl
  · intro h
    match fs with
    | .present (.mapping (some d)) => exact ⟨d, rfl, rfl⟩
    | .present (.mapping none) => exact absurd rfl h
    | .present .nullDoc => exact absurd rfl h
    | .present .nonMapping => exact absurd rfl h
    | .present .failed => exact absurd rfl h
    | .missing =>
      exfalso
      apply h
      by_cases hw : writeOk = true
      · simp [load_devices, hw]
      · simp [load_devices, hw]

theorem c6_load_never_raises_witness :
    (load_devices .missing true = ⟨[], some defaultConfig⟩ ∧
      defaultConfig.devices = [] ∧ defaultConfig.version = "1.0") ∧
    load_devices (.present .failed) true = ⟨[], none⟩ :=
  ⟨(c6_load_never_raises .missing true).1 rfl rfl,
    (c6_load_never_raises (.present .failed) true).2.1 rfl⟩

/-! ## Claim C8: add-then-get round trip -/

theorem lookup_get_devices (file : List (String × DeviceRecord))
    (status : List (String × List (String × PyVal))) (k : String) :
    ((file.map fun p =>
        (p.1, p.2, (status.lookup p.1).getD (defaultStatus p.2.ip))).lookup k) =
      (file.lookup k).map
        (fun rec1 => (rec1, (status.lookup k).getD (defaultStatus rec1.ip))) := by
  induction file with
  | nil => rfl
  | cons p t ih =>
    obtain ⟨a, b⟩ := p
    by_cases h : k = a
    · subst h
      rw [List.map_cons, lookup_cons_eq, lookup_cons_eq]
      rfl
    · rw [List.map_cons, lookup_cons_ne k a _ _ h, lookup_cons_ne k a b t h, ih]

def c8State : AppState := ⟨[], [], []⟩

/-- Claim C8 counterexample: after adding `PC1` (save succeeding), listing
devices does NOT report `status.online == null`: `add_device` itself
probes the device immediately, so the listed status carries the probe's
Boolean (here `false`, after a timed-out ping at time 42), not `None`. -/
theorem c8_counterexample :
    (get_devices (add_device c8State (some "PC1") (some "AA:BB:CC:DD:EE:FF")
        (some "10.0.0.5") 9 "255.255.255.0" true .timedOut 42).state).lookup "PC1"
      = some (⟨"AA:BB:CC:DD:EE:FF", "10.0.0.5", 9, "255.255.255.0"⟩,
          [("online", .vBool false), ("response_time", .vNone),
           ("last_checked", .vNat 42), ("ip", .vStr "10.0.0.5")]) ∧
    PyVal.vBool false ≠ PyVal.vNone := by
  decide

/-- Claim C8 (amended): adding a device (with the save succeeding) and
then listing devices returns a record for that name with the fields
exactly as submitted, and with `status.online` equal to the Boolean
result of the probe that `add_device` itself performs — never `null`.
`status.online` is `null` only for a registry entry that has no
status-cache record, i.e. one never probed. -/
theorem c8_add_then_get (st : AppState) (nm mc ip : String) (port : Nat) (subnet : String)
    (ping : PingOutcome) (now : Nat) (hnm : nm ≠ "") (hmc : mc ≠ "") (hip : ip ≠ "") :
    ((get_devices (add_device st (some nm) (some mc) (some ip) port subnet true ping now).state).lookup nm
      = some (⟨mc, ip, port, subnet⟩,
          mkStatusInfo (ping_device ping).1 (ping_device ping).2 now ip) ∧
      (mkStatusInfo (ping_device ping).1 (ping_device ping).2 now ip).lookup "online"
        = some (.vBool (ping_device ping).1) ∧
      (∀ b : Bool, PyVal.vBool b ≠ PyVal.vNone)) ∧
    (∀ (st2 : AppState) (name : String) (rec1 : DeviceRecord),
      st2.file.lookup name = some rec1 → st2.deviceStatus.lookup name = none →
      (get_devices st2).lookup name = some (rec1, defaultStatus rec1.ip) ∧
      (defaultStatus rec1.ip).lookup "online" = some .vNone) := by
  have h1 : falsyStr (some nm) = false := beq_eq_false_iff_ne.mpr hnm
  have h2 : falsyStr (some mc) = false := beq_eq_false_iff_ne.mpr hmc
  have h3 : falsyStr (some ip) = false := beq_eq_false_iff_ne.mpr hip
  have hshape : add_device st (some nm) (some mc) (some ip) port subnet true ping now =
      ⟨200, ⟨dictSet nm ⟨mc, ip, port, subnet⟩ st.devicesConfig,
        dictSet nm (mkStatusInfo (ping_device ping).1 (ping_device ping).2 now ip)
          st.deviceStatus,
        dictSet nm ⟨mc, ip, port, subnet⟩ st.devicesConfig⟩⟩ := by
    simp [add_device, h1, h2, h3]
  refine ⟨⟨?_, ?_, ?_⟩, ?_⟩
  · rw [hshape]
    show ((dictSet nm ⟨mc, ip, port, subnet⟩ st.devicesConfig).map fun p =>
        (p.1, p.2,
          ((dictSet nm (mkStatusInfo (ping_device ping).1 (ping_device ping).2 now ip)
            st.deviceStatus).lookup p.1).getD (defaultStatus p.2.ip))).lookup nm = _
    rw [lookup_get_devices, lookup_dictSet_self, lookup_dictSet_self]
    rfl
  · exact lookup_cons_eq "online" _ _
  · intro b hb
    exact PyVal.noConfusion hb
  · intro st2 name rec1 hf hs
    constructor
    · show (st2.file.map fun p =>
          (p.1, p.2, (st2.deviceStatus.lookup p.1).getD (defaultStatus p.2.ip))).lookup name = _
      rw [lookup_get_devices, hf, hs]
      rfl
    · exact lookup_cons_eq "online" _ _

theorem c8_add_then_get_witness :
    (("PC1" : String) ≠ "" ∧ ("AA:BB:CC:DD:EE:FF" : String) ≠ "" ∧
      ("10.0.0.5" : String) ≠ "") ∧
    (((get_devices (add_device c8State (some "PC1") (some "AA:BB:CC:DD:EE:FF")
          (some "10.0.0.5") 9 "255.255.255.0" true .timedOut 42).state).lookup "PC1"
        = some (⟨"AA:BB:CC:DD:EE:FF", "10.0.0.5", 9, "255.255.255.0"⟩,
            mkStatusInfo (ping_device .timedOut).1 (ping_device .timedOut).2 42 "10.0.0.5") ∧
      (mkStatusInfo (ping_device .timedOut).1 (ping_device .timedOut).2 42 "10.0.0.5").lookup "online"
        = some (.vBool (ping_device .timedOut).1) ∧
      (∀ b : Bool, PyVal.vBool b ≠ PyVal.vNone)) ∧
    (∀ (st2 : AppState) (name : String) (rec1 : DeviceRecord),
      st2.file.lookup name = some rec1 → st2.deviceStatus.lookup name = none →
      (get_devices st2).lookup name = some (rec1, defaultStatus rec1.ip) ∧
      (defaultStatus rec1.ip).lookup "online" = some .vNone)) :=
  ⟨⟨by decide, by decide, by decide⟩,
    c8_add_then_get c8State "PC1" "AA:BB:CC:DD:EE:FF" "10.0.0.5" 9 "255.255.255.0"
      .timedOut 42 (by decide) (by decide) (by decide)⟩

/-! ## Claim C9: lock discipline

The source has exactly one lock, `status_lock` (src/app.py line 21).  To
settle the serialization claim we record, for each handler, the ordered
sequence of shared-state actions it performs and which of them the source
wraps in `with status_lock:`.  The traces below are read off the handler
bodies statement by statement. -/

/-- An access to shared state performed by a handler. -/
inductive Action where
  | acquireLock
  | releaseLock
  | registryWrite
  | statusWrite
  | fileWrite
  | fileRead
  | probe
  deriving DecidableEq, Repr

/-- `add_device` success path (src/app.py lines 405-427): assign
`devices_config[device_name]` (no lock), `save_devices` (no lock),
`ping_device` (no lock), then `with status_lock:` around the single
status-cache write. -/
def addDeviceActions : List Action :=
  [.registryWrite, .fileWrite, .probe, .acquireLock, .statusWrite, .releaseLock]

/-- `update_device` rename success path (src/app.py lines 473-503):
`del devices_config[device_name]` (no lock), `with status_lock:` around
the status-entry move, assign `devices_config[new_name]` (no lock),
`save_devices` (no lock), `ping_device` (no lock), `with status_lock:`
around the fresh status write. -/
def updateDeviceActions : List Action :=
  [.registryWrite, .acquireLock, .statusWrite, .releaseLock, .registryWrite,
   .fileWrite, .probe, .acquireLock, .statusWrite, .releaseLock]

/-- `delete_device` success path (src/app.py lines 531-541):
`del devices_config[device_name]` (no lock), `with status_lock:` around
the status-entry deletion, `save_devices` (no lock). -/
def deleteDeviceActions : List Action :=
  [.registryWrite, .acquireLock, .statusWrite, .releaseLock, .fileWrite]

/-- `check_all_devices` (src/app.py lines 97-141): `load_devices` (no
lock), the probe fan-out, then `with status_lock:` around
`device_status.update(results)`. -/
def checkAllActions : List Action :=
  [.fileRead, .probe, .acquireLock, .statusWrite, .releaseLock]

/-- `load_devices` as called from the read endpoints (src/app.py line
288): a bare file read, under no lock. -/
def loadDevicesActions : List Action :=
  [.fileRead]

/-- Whether the status lock is held when the `i`-th action of a trace
runs. -/
def lockHeldBefore (tr : List Action) (i : Nat) : Bool :=
  (tr.take i).count .releaseLock < (tr.take i).count .acquireLock

/-- Every action of the trace selected by `isTarget` runs with the lock
held. -/
def actionsLocked (isTarget : Action → Bool) (tr : List Action) : Bool :=
  (List.range tr.length).all fun i =>
    match tr.get? i with
    | some a => !isTarget a || lockHeldBefore tr i
    | none => true

/-- Accesses to the device registry and its backing file: the
"load/mutate/save sequence" of the claim. -/
def isRegistryAccess : Action → Bool
  | .registryWrite => true
  | .fileWrite => true
  | .fileRead => true
  | _ => false

/-- Writes to the status cache. -/
def isStatusWrite : Action → Bool
  | .statusWrite => true
  | _ => false

/-- Claim C9 counterexample: none of the registry-mutating handlers holds
any lock around its registry mutation or its load/mutate/save sequence —
the only lock in the program guards only the status cache — so registry
operations are not serialized through a mutual-exclusion lock. -/
theorem c9_counterexample :
    actionsLocked isRegistryAccess addDeviceActions = false ∧
    actionsLocked isRegistryAccess updateDeviceActions = false ∧
    actionsLocked isRegistryAccess deleteDeviceActions = false ∧
    actionsLocked isRegistryAccess loadDevicesActions = false := by
  decide

/-- Claim C9 (amended): the single lock of the program, `status_lock`,
guards every status-cache write in every handler, but no registry
mutation, file read or file write runs under any lock, so concurrent
registry mutations from different request handlers are free to
interleave. -/
theorem c9_only_status_cache_locked :
    (actionsLocked isStatusWrite addDeviceActions = true ∧
      actionsLocked isStatusWrite updateDeviceActions = true ∧
      actionsLocked isStatusWrite deleteDeviceActions = true ∧
      actionsLocked isStatusWrite checkAllActions = true) ∧
    (actionsLocked isRegistryAccess addDeviceActions = false ∧
      actionsLocked isRegistryAccess updateDeviceActions = false ∧
      actionsLocked isRegistryAccess deleteDeviceActions = false ∧
      actionsLocked isRegistryAccess checkAllActions = false) := by
  decide

/-! ## Claim C10: the status-record invariant -/

/-- The keys every status record is written with, in insertion order. -/
def statusKeys : List String := ["online", "response_time", "last_checked", "ip"]

/-- A status record has exactly the four fields `online`,
`response_time`, `last_checked`, `ip`, and a non-`None` `response_time`
only together with `online = True`. -/
def statusWellFormed (r : List (String × PyVal)) : Bool :=
  (r.map Prod.fst == statusKeys) &&
  (match r.lookup "response_time" with
   | some .vNone => true
   | none => true
   | some _ => r.lookup "online" == some (.vBool true))

/-- Every record in the status cache is well formed. -/
def statusInvariantAll (s : List (String × List (String × PyVal))) : Bool :=
  s.all fun p => statusWellFormed p.2

theorem statusWellFormed_mk (o : PingOutcome) (now : Nat) (ip : String) :
    statusWellFormed (mkStatusInfo (ping_device o).1 (ping_device o).2 now ip) = true := by
  cases o with
  | completed rc e =>
    by_cases h : rc = 0
    · subst h
      rfl
    · have hp : ping_device (.completed rc e) = (false, none) := by
        simp [ping_device, h]
      rw [hp]
      rfl
  | timedOut => rfl
  | errored m => rfl

theorem invAll_iff (s : List (String × List (String × PyVal))) :
    statusInvariantAll s = true ↔ ∀ p ∈ s, statusWellFormed p.2 = true := by
  simp [statusInvariantAll, List.all_eq_true]

theorem invAll_dictSet (s : List (String × List (String × PyVal))) (k : String)
    (r : List (String × PyVal)) (hs : statusInvariantAll s = true)
    (hr : statusWellFormed r = true) : statusInvariantAll (dictSet k r s) = true := by
  rw [invAll_iff] at hs ⊢
  intro p hp
  rcases mem_dictSet k r s p hp with h | h
  · rw [h]; exact hr
  · exact hs p h

theorem invAll_dictDel (s : List (String × List (String × PyVal))) (k : String)
    (hs : statusInvariantAll s = true) : statusInvariantAll (dictDel k s) = true := by
  rw [invAll_iff] at hs ⊢
  intro p hp
  exact hs p (mem_dictDel k s p hp)

theorem invAll_dictUpdate (s rs : List (String × List (String × PyVal)))
    (hs : statusInvariantAll s = true) (hrs : ∀ q ∈ rs, statusWellFormed q.2 = true) :
    statusInvariantAll (dictUpdate s rs) = true := by
  rw [invAll_iff] at hs ⊢
  intro p hp
  rcases mem_dictUpdate s rs p hp with h | ⟨q, hq, hpq⟩
  · exact hs p h
  · rw [hpq]; exact hrs q hq

/-- Claim C10: starting from any status cache whose records are all well
formed, every operation that writes status records — the bulk refresh,
the single-device ping, add, update (including its rename move) and
delete — leaves every record in the cache with exactly the fields
`online`, `response_time`, `last_checked`, `ip`, and with a non-`None`
`response_time` only when `online` is `True`. -/
theorem c10_status_records_wellformed (st : AppState)
    (h : statusInvariantAll st.deviceStatus = true) :
    (∀ (pings : String → PingOutcome) (now : Nat),
      statusInvariantAll (check_all_devices st pings now).deviceStatus = true) ∧
    (∀ (name : String) (ping : PingOutcome) (now : Nat),
      statusInvariantAll (ping_single_device st name ping now).state.deviceStatus = true) ∧
    (∀ (name mac ip : Option String) (port : Nat) (subnet : String) (saveOk : Bool)
        (ping : PingOutcome) (now : Nat),
      statusInvariantAll
        (add_device st name mac ip port subnet saveOk ping now).state.deviceStatus = true) ∧
    (∀ (deviceName : String) (newName mac ip : Option String) (port : Nat) (subnet : String)
        (saveOk : Bool) (ping : PingOutcome) (now : Nat),
      statusInvariantAll
        (update_device st deviceName newName mac ip port subnet saveOk ping now).state.deviceStatus = true) ∧
    (∀ (name : String) (saveOk : Bool),
      statusInvariantAll (delete_device st name saveOk).state.deviceStatus = true) := by
  refine ⟨?_, ?_, ?_, ?_, ?_⟩
  · intro pings now
    simp only [check_all_devices]
    split
    · exact h
    · apply invAll_dictUpdate _ _ h
      intro q hq
      simp only [List.mem_map] at hq
      obtain ⟨p, hp, rfl⟩ := hq
      exact statusWellFormed_mk (pings p.1) now p.2.ip
  · intro name ping now
    cases hl : st.devicesConfig.lookup name with
    | none => simp only [ping_single_device, hl]; exact h
    | some info =>
      simp only [ping_single_device, hl]
      exact invAll_dictSet _ _ _ h (statusWellFormed_mk ping now info.ip)
  · intro name mac ip port subnet saveOk ping now
    simp only [add_device]
    split_ifs with f1 f2 f3 hs
    · exact h
    · exact h
    · exact h
    · exact invAll_dictSet _ _ _ h (statusWellFormed_mk ping now _)
    · exact h
  · intro deviceName newName mac ip port subnet saveOk ping now
    cases hl : st.devicesConfig.lookup deviceName with
    | none => simp only [update_device, hl]; exact h
    | some rec0 =>
      simp only [update_device, hl]
      have hstatus1 : statusInvariantAll
          (if (newName.getD deviceName) ≠ deviceName then
            match st.deviceStatus.lookup deviceName with
            | some r =>
              dictSet (newName.getD deviceName) r (dictDel deviceName st.deviceStatus)
            | none => st.deviceStatus
          else st.deviceStatus) = true := by
        split
        · cases hsl : st.deviceStatus.lookup deviceName with
          | some r =>
            have hr : statusWellFormed r = true := by
              rw [invAll_iff] at h
              exact h (deviceName, r) (mem_of_lookup deviceName r _ hsl)
            exact invAll_dictSet _ _ _ (invAll_dictDel _ _ h) hr
          | none => exact h
        · exact h
      by_cases f2 : falsyStr mac = true
      · rw [if_pos f2]; exact h
      · rw [if_neg f2]
        by_cases f3 : falsyStr ip = true
        · rw [if_pos f3]; exact h
        · rw [if_neg f3]
          by_cases hs : saveOk = true
          · rw [if_pos hs]
            exact invAll_dictSet _ _ _ hstatus1 (statusWellFormed_mk ping now _)
          · rw [if_neg hs]
            exact hstatus1
  · intro name saveOk
    cases hl : st.devicesConfig.lookup name with
    | none => simp only [delete_device, hl]; exact h
    | some rec0 =>
      simp only [delete_device, hl]
      by_cases hs : saveOk = true
      · rw [if_pos hs]; exact invAll_dictDel _ _ h
      · rw [if_neg hs]; exact invAll_dictDel _ _ h

def c10State : AppState :=
  ⟨[("PC1", ⟨"AA:BB:CC:DD:EE:FF", "10.0.0.5", 9, "255.255.255.0"⟩)],
   [("PC1", mkStatusInfo true (some 5) 1 "10.0.0.5")],
   [("PC1", ⟨"AA:BB:CC:DD:EE:FF", "10.0.0.5", 9, "255.255.255.0"⟩)]⟩

theorem c10_status_records_wellformed_witness :
    statusInvariantAll c10State.deviceStatus = true ∧
    statusInvariantAll
      (check_all_devices c10State (fun _ => .timedOut) 7).deviceStatus = true ∧
    statusInvariantAll
      (ping_single_device c10State "PC1" (.completed 0 3) 8).state.deviceStatus = true ∧
    statusInvariantAll
      (add_device c10State (some "PC2") (some "BB") (some "10.0.0.6") 9 "255.255.255.0"
        true (.errored "boom") 9).state.deviceStatus = true ∧
    statusInvariantAll
      (update_device c10State "PC1" (some "PC9") (some "CC") (some "10.0.0.7") 9
        "255.255.255.0" false .timedOut 10).state.deviceStatus = true ∧
    statusInvariantAll (delete_device c10State "PC1" true).state.deviceStatus = true :=
  ⟨by decide,
    (c10_status_records_wellformed c10State (by decide)).1 (fun _ => .timedOut) 7,
    (c10_status_records_wellformed c10State (by decide)).2.1 "PC1" (.completed 0 3) 8,
    (c10_status_records_wellformed c10State (by decide)).2.2.1 (some "PC2") (some "BB")
      (some "10.0.0.6") 9 "255.255.255.0" true (.errored "boom") 9,
    (c10_status_records_wellformed c10State (by decide)).2.2.2.1 "PC1" (some "PC9")
      (some "CC") (some "10.0.0.7") 9 "255.255.255.0" false .timedOut 10,
    (c10_status_records_wellformed c10State (by decide)).2.2.2.2 "PC1" true⟩

end WolApp
